import Mathlib

/-!
Verification of the CNB exchange-rates extraction component
(`src/component.py`) against its specification.

Calendar dates are embedded as integer day numbers (`Int`): adding one
day is `+ 1`, `timedelta(days = i)` is `+ i`, and the difference
`(a - b).days` is `a - b`.  Concrete counterexamples use the epoch
day 0 = 2024-01-01 (so -1 = 2023-12-31, 1 = 2024-01-02).
-/

namespace CnbRates

/-- The distinct `UserException` messages the component can raise,
one constructor per message in `src/component.py`. -/
inductive UserException where
  /-- "You have to specify a name for the output table!" -/
  | noFileName : UserException
  /-- "\"Date from\" is higher or equal to date to!" -/
  | dateFromGeDateTo : UserException
  /-- "\"Date from\" is in the future!" -/
  | dateFromInFuture : UserException
  /-- "Dates not specified correctly for custom date range!" -/
  | datesNotSpecified : UserException
  /-- "No currency was selected!" -/
  | noCurrencySelected : UserException
  /-- "Data were not fetched!" -/
  | dataNotFetched : UserException
deriving DecidableEq, Repr

/-- `Component._set_date_range(dates_list, day, days)`: appends
`day - i` for `i in range(days)` to the accumulating list. -/
def set_date_range (dates_list : List Int) (day : Int) (days : Nat) : List Int :=
  dates_list ++ (List.range days).map (fun (i : ℕ) => day - (i : Int))

/-- `Component._set_today`. -/
def set_today (dates_list : List Int) (today : Int) : List Int :=
  set_date_range dates_list today 1

/-- `Component._set_today_and_yesterday`. -/
def set_today_and_yesterday (dates_list : List Int) (today : Int) : List Int :=
  set_date_range dates_list today 2

/-- `Component._set_week`. -/
def set_week (dates_list : List Int) (today : Int) : List Int :=
  set_date_range dates_list today 7

/-- `Component._set_custom_date_range(dates_list, today, date_from, date_to)`.
Returns the extended list together with a flag recording whether the
clamp warning (`date_to` in the future) was logged, or the raised
`UserException`. -/
def set_custom_date_range (dates_list : List Int) (today date_from date_to : Int) :
    Except UserException (List Int × Bool) :=
  if date_from ≥ date_to then
    .error .dateFromGeDateTo
  else if date_from > today then
    .error .dateFromInFuture
  else
    .ok (dates_list ++
          (List.range ((min date_to today - date_from).toNat + 1)).map
            (fun (i : ℕ) => date_from + (i : Int)),
         decide (date_to > today))

/-- Modelled from the spec: the fixed, embedded currency catalog
(~32 full currency names mapped to 3-letter codes) lives in the
`CNBRatesClient` module, which is not part of the sources under
verification; only its code set matters here.  The concrete codes are
the CNB daily-feed currencies. -/
def catalog_codes : List String :=
  ["AUD", "BRL", "BGN", "CNY", "DKK", "EUR", "PHP", "HKD", "INR", "IDR",
   "ISK", "ILS", "JPY", "ZAR", "CAD", "KRW", "HUF", "MYR", "MXN", "XDR",
   "NOK", "NZD", "PLN", "RON", "SGD", "SEK", "CHF", "THB", "TRY", "USD",
   "GBP", "SAR"]

/-- The configuration parameters `run` reads, shallowly embedded.
`param_keys` models the keys of the parameter dictionary together with
the truthiness of their values (Python `params[p]` as a boolean test);
`dependent_date_from`/`dependent_date_to` hold the parsed date when
`datetime.strptime` succeeds and `none` when it raises `ValueError`. -/
structure Params where
  file_name : String
  incremental : Bool
  dates : String
  dependent_date_from : Option Int
  dependent_date_to : Option Int
  currency : String
  param_keys : List (String × Bool)
  current_as_today : Bool

/-- The list comprehension of `run`:
`[p.split('_')[2] for p in params if p.startswith("select_curr") and params[p]]`,
with `None` for the `'All'` sentinel. -/
def selected_currency (p : Params) : Option (List String) :=
  if p.currency = "All" then none
  else some
    ((p.param_keys.filter
        (fun q => "select_curr".toList.isPrefixOf q.1.toList && q.2)).map
      (fun q => ((q.1.toList.splitOn '_').getD 2 []).asString))

/-- One data line of the CNB daily feed, as parsed by the client. -/
structure FeedLine where
  country : String
  currencyName : String
  amount : Int
  code : String
  rate : String
deriving DecidableEq, Repr

/-- One output row: a feed line stamped with the requested date. -/
structure RateRecord where
  date : Int
  country : String
  currencyName : String
  amount : Int
  code : String
  rate : String
deriving DecidableEq, Repr

/-- Modelled from the spec: within one date's parse output a duplicate
code keeps only the first occurrence (later duplicates dropped with a
warning). -/
def dedup_by_code : List FeedLine → List String → List FeedLine
  | [], _ => []
  | l :: ls, seen =>
      if seen.contains l.code then dedup_by_code ls seen
      else l :: dedup_by_code ls (l.code :: seen)

/-- Modelled from the spec: a feed line whose code is absent from the
requested currency set is excluded; the `'All'` sentinel (`none`)
keeps every line. -/
def filter_codes (codes : Option (List String)) (ls : List FeedLine) : List FeedLine :=
  match codes with
  | none => ls
  | some cs => ls.filter (fun l => cs.contains l.code)

/-- Modelled from the spec: `CNBRatesClient.get_rates` (the client
module is not among the sources under verification).  For each date in
order it fetches the feed, parses it, deduplicates codes within the
date, filters by the selected currency set and stamps each record with
the requested date; a date whose retries are exhausted (`fetch d =
none`) contributes zero rows.  `fetch` abstracts the HTTP transport,
the bounded retry loop and the `use_nearest_as_current` handling: it
returns the parsed feed lines finally obtained for a date, or `none`
when every attempt failed.  `rates_for_date` is one date's
contribution: parse, deduplicate, filter, stamp. -/
def rates_for_date (fetch : Int → Option (List FeedLine))
    (codes : Option (List String)) (d : Int) : List RateRecord :=
  match fetch d with
  | none => []
  | some ls =>
      (filter_codes codes (dedup_by_code ls [])).map
        (fun l => { date := d, country := l.country,
                    currencyName := l.currencyName, amount := l.amount,
                    code := l.code, rate := l.rate })

/-- Modelled from the spec: `CNBRatesClient.get_rates` accumulates,
for each requested date in order, that date's rows. -/
def get_rates (fetch : Int → Option (List FeedLine)) (dates : List Int)
    (codes : Option (List String)) : List RateRecord :=
  dates.flatMap (rates_for_date fetch codes)

/-- The date-resolution stage of `run` (lines 105-118): look the mode
string up in `_get_dates_setters` and call the setter; a missing key
leaves `dates_list` empty.  Returns the resolved dates and the clamp
warning flag. -/
def resolve_dates (today : Int) (p : Params) :
    Except UserException (List Int × Bool) :=
  if p.dates = "Current day (currently declared rates)" then
    .ok (set_today [] today, false)
  else if p.dates = "Current day and yesterday" then
    .ok (set_today_and_yesterday [] today, false)
  else if p.dates = "Week" then
    .ok (set_week [] today, false)
  else if p.dates = "Custom date range" then
    match p.dependent_date_from, p.dependent_date_to with
    | some date_from, some date_to =>
        set_custom_date_range [] today date_from date_to
    | _, _ => .error .datesNotSpecified
  else
    .ok ([], false)

/-- `Component.run`, shallowly embedded: the output-table-name check,
date resolution, currency selection, the empty-selection check, the
call to `get_rates` and the final empty-result check.  On success it
returns the rows written to the output CSV (in order). -/
def run (today : Int) (p : Params) (fetch : Int → Option (List FeedLine)) :
    Except UserException (List RateRecord) :=
  if p.file_name = "" then
    .error .noFileName
  else
    match resolve_dates today p with
    | .error e => .error e
    | .ok (dates_list, _warned) =>
        if selected_currency p = some [] then
          .error .noCurrencySelected
        else if get_rates fetch dates_list (selected_currency p) = [] then
          .error .dataNotFetched
        else
          .ok (get_rates fetch dates_list (selected_currency p))

/-! ## Helper lemmas -/

/-- Unfolding of a successful custom-range resolution: when `f < t` and
`f ≤ today`, the resolver succeeds with the ascending interval from `f`
to `min t today` and the warning flag `t > today`. -/
lemma set_custom_date_range_ok (today f t : Int) (h1 : f < t) (h2 : f ≤ today) :
    set_custom_date_range [] today f t =
      .ok ((List.range ((min t today - f).toNat + 1)).map (fun (i : ℕ) => f + (i : Int)),
           decide (t > today)) := by
  unfold set_custom_date_range
  rw [if_neg (by omega), if_neg (by omega)]
  simp

/-- A successful custom-range resolution yields a strictly ascending list. -/
lemma set_custom_date_range_ok_pairwise (today f t : Int) (ds : List Int) (w : Bool)
    (h : set_custom_date_range [] today f t = .ok (ds, w)) :
    ds.Pairwise (· < ·) := by
  unfold set_custom_date_range at h
  split at h
  · exact absurd h (by simp)
  · split at h
    · exact absurd h (by simp)
    · simp only [List.nil_append, Except.ok.injEq, Prod.mk.injEq] at h
      rw [← h.1]
      refine List.pairwise_map.mpr (List.Pairwise.imp ?_ (List.pairwise_lt_range _))
      intro a b hab
      omega

/-! ## C5: the three relative modes -/

/-- C5: for every reference date `R`, mode Today resolves to `[R]`,
TodayAndYesterday to `[R, R-1]` and Week to the 7 dates
`[R, R-1, ..., R-6]`. -/
theorem relative_modes_resolve (R : Int) :
    set_today [] R = [R] ∧
    set_today_and_yesterday [] R = [R, R - 1] ∧
    set_week [] R = [R, R - 1, R - 2, R - 3, R - 4, R - 5, R - 6] := by
  refine ⟨?_, ?_, ?_⟩ <;>
    simp [set_today, set_today_and_yesterday, set_week, set_date_range,
          List.range_succ]

/-! ## C4: valid custom range -/

/-- C4: for every `f < t ≤ R`, resolving the custom range succeeds with
no clamp warning, and the resolved list is the closed interval
`[f, t]`: its length is `(t - f) + 1` days, its members are exactly the
dates between `f` and `t`, and it is strictly ascending (hence without
gaps or duplicates). -/
theorem custom_range_interval (R f t : Int) (h1 : f < t) (h2 : t ≤ R) :
    ∃ ds : List Int,
      set_custom_date_range [] R f t = .ok (ds, false) ∧
      ds.length = (t - f).toNat + 1 ∧
      (∀ d : Int, d ∈ ds ↔ f ≤ d ∧ d ≤ t) ∧
      ds.Pairwise (· < ·) := by
  refine ⟨(List.range ((t - f).toNat + 1)).map (fun (i : ℕ) => f + (i : Int)), ?_, ?_, ?_, ?_⟩
  · rw [set_custom_date_range_ok R f t h1 (by omega), min_eq_left h2]
    simp [show ¬ t > R by omega]
  · rw [List.length_map, List.length_range]
  · intro d
    simp only [List.mem_map, List.mem_range]
    constructor
    · rintro ⟨i, hi, rfl⟩
      omega
    · rintro ⟨hd1, hd2⟩
      exact ⟨(d - f).toNat, by omega, by omega⟩
  · refine List.pairwise_map.mpr (List.Pairwise.imp ?_ (List.pairwise_lt_range _))
    intro a b hab
    omega

/-- Witness for C4 at `R = 2`, `f = 0`, `t = 1`. -/
theorem custom_range_interval_witness :
    ∃ ds : List Int,
      set_custom_date_range [] 2 0 1 = .ok (ds, false) ∧
      ds.length = ((1 : Int) - 0).toNat + 1 ∧
      (∀ d : Int, d ∈ ds ↔ 0 ≤ d ∧ d ≤ 1) ∧
      ds.Pairwise (· < ·) :=
  custom_range_interval 2 0 1 (by norm_num) (by norm_num)

/-! ## C2: clamping of a future `date_to` -/

/-- C2 counterexample: with `R = 0`, `f = 0`, `t = 1` we have `f < t`
and `t > R`, and resolving `(R, f, t)` succeeds (with the clamp
warning), but resolving `(R, f, R)` raises the `from ≥ to` validation
error instead of producing the same date set. -/
theorem custom_clamp_counterexample :
    (0 : Int) < 1 ∧ (1 : Int) > 0 ∧
    set_custom_date_range [] 0 0 1 = .ok ([0], true) ∧
    set_custom_date_range [] 0 0 0 = .error .dateFromGeDateTo := by
  refine ⟨by norm_num, by norm_num, ?_, rfl⟩
  rfl

/-- C2 amended: for every `f < t` with `t > R` *and `f < R`*, resolving
`(R, f, t)` produces exactly the same date list as resolving
`(R, f, R)`, the former with the clamp warning and the latter without.
(When `f = R` the clamped call `(R, f, R)` raises the `from ≥ to`
validation error instead, and when `f > R` both calls fail.) -/
theorem custom_clamp_amended (R f t : Int) (h1 : f < t) (h2 : t > R) (h3 : f < R) :
    ∃ ds : List Int,
      set_custom_date_range [] R f t = .ok (ds, true) ∧
      set_custom_date_range [] R f R = .ok (ds, false) := by
  refine ⟨(List.range ((R - f).toNat + 1)).map (fun (i : ℕ) => f + (i : Int)), ?_, ?_⟩
  · rw [set_custom_date_range_ok R f t h1 (by omega), min_eq_right (le_of_lt h2)]
    simp [h2]
  · rw [set_custom_date_range_ok R f R h3 (by omega), min_self]
    simp

/-- Witness for the amended C2 at `R = 1`, `f = 0`, `t = 2`. -/
theorem custom_clamp_amended_witness :
    ∃ ds : List Int,
      set_custom_date_range [] 1 0 2 = .ok (ds, true) ∧
      set_custom_date_range [] 1 0 1 = .ok (ds, false) :=
  custom_clamp_amended 1 0 2 (by norm_num) (by norm_num) (by norm_num)

/-- Inversion of a successful run: the output-table name was nonempty,
date resolution succeeded, the currency check passed, and the emitted
rows are exactly what `get_rates` produced — in particular nonempty. -/
lemma run_eq_ok (today : Int) (p : Params) (fetch : Int → Option (List FeedLine))
    (rows : List RateRecord) (h : run today p fetch = .ok rows) :
    p.file_name ≠ "" ∧
    ∃ ds w, resolve_dates today p = .ok (ds, w) ∧
      selected_currency p ≠ some [] ∧
      rows = get_rates fetch ds (selected_currency p) ∧ rows ≠ [] := by
  unfold run at h
  split at h
  · simp at h
  · rename_i hf
    split at h
    · simp at h
    · rename_i ds w hr
      split at h
      · simp at h
      · split at h
        · simp at h
        · rename_i hsel hne
          have hrows : get_rates fetch ds (selected_currency p) = rows := by
            simpa using h
          exact ⟨hf, ds, w, hr, hsel, hrows.symm, by rw [← hrows]; exact hne⟩

/-! ## C3: custom-range validation errors -/

/-- C3: resolving a custom range with `from ≥ to` raises the
corresponding validation error; with `from > R` it raises a validation
error (one of the two bound checks); in both cases the resolver
returns no dates (it returns an `Except.error`), and a date-resolution
failure can only happen when the configured mode is the custom range. -/
theorem custom_range_validation (today f t : Int) (p : Params) :
    (f ≥ t → set_custom_date_range [] today f t = .error .dateFromGeDateTo) ∧
    (f > today →
      set_custom_date_range [] today f t = .error .dateFromGeDateTo ∨
      set_custom_date_range [] today f t = .error .dateFromInFuture) ∧
    (∀ e, resolve_dates today p = .error e → p.dates = "Custom date range") := by
  refine ⟨?_, ?_, ?_⟩
  · intro h
    unfold set_custom_date_range
    rw [if_pos h]
  · intro h
    by_cases h2 : f ≥ t
    · left
      unfold set_custom_date_range
      rw [if_pos h2]
    · right
      unfold set_custom_date_range
      rw [if_neg h2, if_pos h]
  · intro e he
    unfold resolve_dates at he
    by_cases h1 : p.dates = "Current day (currently declared rates)"
    · rw [if_pos h1] at he
      exact absurd he (by simp)
    · rw [if_neg h1] at he
      by_cases h2 : p.dates = "Current day and yesterday"
      · rw [if_pos h2] at he
        exact absurd he (by simp)
      · rw [if_neg h2] at he
        by_cases h3 : p.dates = "Week"
        · rw [if_pos h3] at he
          exact absurd he (by simp)
        · rw [if_neg h3] at he
          by_cases h4 : p.dates = "Custom date range"
          · exact h4
          · rw [if_neg h4] at he
            exact absurd he (by simp)

/-- Concrete parameters exercising the custom-range validation path:
mode CustomRange with `date_from = date_to = 2024-01-02` (day 1). -/
def p_c3w : Params :=
  { file_name := "rates", incremental := false, dates := "Custom date range",
    dependent_date_from := some 1, dependent_date_to := some 1,
    currency := "All", param_keys := [], current_as_today := true }

/-- Witness for C3 at `today = 0`: `from = to = 1` raises the
`from ≥ to` error, `from = 1 > today` with `to = 2` raises a
validation error, and the failing resolution happens under the
CustomRange mode string. -/
theorem custom_range_validation_witness :
    set_custom_date_range [] 0 1 1 = .error .dateFromGeDateTo ∧
    (set_custom_date_range [] 0 1 2 = .error .dateFromGeDateTo ∨
     set_custom_date_range [] 0 1 2 = .error .dateFromInFuture) ∧
    p_c3w.dates = "Custom date range" :=
  ⟨(custom_range_validation 0 1 1 p_c3w).1 (by norm_num),
   (custom_range_validation 0 1 2 p_c3w).2.1 (by norm_num),
   (custom_range_validation 0 1 2 p_c3w).2.2 .dateFromGeDateTo (by rfl)⟩

/-! ## C7: empty explicit currency selection -/

/-- C7: when the explicit currency selection resolves to the empty
set, every run fails (first part), the outcome does not depend on the
fetch function at all — no network access can influence or be required
for the result (second part) — and as soon as the earlier
output-table-name check and date resolution pass, the failure is
exactly the "no currency was selected" configuration error (third
part). -/
theorem empty_selection_aborts (today : Int) (p : Params)
    (hsel : selected_currency p = some []) :
    (∀ fetch, ∃ e, run today p fetch = .error e) ∧
    (∀ fetch fetch2, run today p fetch = run today p fetch2) ∧
    (∀ fetch ds w, p.file_name ≠ "" → resolve_dates today p = .ok (ds, w) →
      run today p fetch = .error .noCurrencySelected) := by
  have key : ∀ fetch : Int → Option (List FeedLine),
      run today p fetch =
        (if p.file_name = "" then .error .noFileName
         else match resolve_dates today p with
              | .error e => .error e
              | .ok _ => .error .noCurrencySelected) := by
    intro fetch
    unfold run
    split
    · rfl
    · split
      · rename_i e heq
        simp [heq]
      · rename_i a heq
        simp [heq, hsel]
  refine ⟨?_, ?_, ?_⟩
  · intro fetch
    rw [key fetch]
    by_cases hf : p.file_name = ""
    · rw [if_pos hf]
      exact ⟨_, rfl⟩
    · rw [if_neg hf]
      cases hr : resolve_dates today p with
      | error e => exact ⟨e, rfl⟩
      | ok dw => exact ⟨.noCurrencySelected, rfl⟩
  · intro fetch fetch2
    rw [key fetch, key fetch2]
  · intro fetch ds w hf hr
    rw [key fetch, if_neg hf, hr]

/-- Concrete parameters with an explicit currency selection resolving
to the empty set: the sentinel is not `'All'` and no `select_curr_*`
key is truthy. -/
def p_c7w : Params :=
  { file_name := "rates", incremental := false, dates := "Week",
    dependent_date_from := none, dependent_date_to := none,
    currency := "Selected", param_keys := [("select_curr_USD", false)],
    current_as_today := true }

/-- Witness for C7: with the empty explicit selection the run aborts
with the "no currency was selected" error. -/
theorem empty_selection_aborts_witness :
    run 0 p_c7w (fun _ => none) = .error .noCurrencySelected :=
  (empty_selection_aborts 0 p_c7w (by rfl)).2.2 (fun _ => none)
    (set_week [] 0) false (by simp [p_c7w]) (by rfl)

/-! ## C1: run with `date_from = date_to = reference date` -/

/-- Mode CustomRange with `date_from = date_to = reference = 2024-01-01`
(day 0). -/
def p_c1 : Params :=
  { file_name := "rates", incremental := false, dates := "Custom date range",
    dependent_date_from := some 0, dependent_date_to := some 0,
    currency := "All", param_keys := [], current_as_today := true }

/-- The same configuration with `date_from = 2023-12-31` (day -1), a
strictly smaller lower bound. -/
def p_c1_adj : Params :=
  { p_c1 with dependent_date_from := some (-1) }

/-- C1 counterexample: with `date_from = date_to = reference =
2024-01-01` and every fetch attempt failing, the run fails with the
`from ≥ to` validation error raised at date resolution — not with the
data-empty ("data were not fetched") error the claim names. -/
theorem custom_equal_bounds_counterexample :
    run 0 p_c1 (fun _ => none) = .error .dateFromGeDateTo ∧
    UserException.dateFromGeDateTo ≠ UserException.dataNotFetched :=
  ⟨rfl, by decide⟩

/-- C1 amended: with `date_from = date_to = reference = 2024-01-01` the
run fails with the `from ≥ to` validation error whatever the fetch
outcomes (the bounds check `date_from < date_to` is strict, so the
one-day range must be written `from = 2023-12-31`, `to = 2024-01-01`);
with that adjusted range and every fetch attempt failing after
exhausting retries, the run fails with the data-empty error. -/
theorem custom_equal_bounds_amended :
    (∀ fetch, run 0 p_c1 fetch = .error .dateFromGeDateTo) ∧
    run 0 p_c1_adj (fun _ => none) = .error .dataNotFetched :=
  ⟨fun _ => rfl, rfl⟩

/-! ## C8: currency entries are not validated against the catalog -/

/-- An explicit selection whose only truthy `select_curr_*` key names
the code `ZZZ`, which is not in the currency catalog. -/
def p_c8 : Params :=
  { file_name := "rates", incremental := false, dates := "Week",
    dependent_date_from := none, dependent_date_to := none,
    currency := "Selected", param_keys := [("select_curr_ZZZ", true)],
    current_as_today := true }

/-- C8 counterexample: the entry `ZZZ` is not a known catalog code,
yet the selection resolves to `["ZZZ"]` without any rejection, and the
run proceeds past the currency stage to fetching (failing only later
with the data-empty error once every fetch fails). -/
theorem unknown_code_passes_counterexample :
    selected_currency p_c8 = some ["ZZZ"] ∧
    "ZZZ" ∉ catalog_codes ∧
    run 0 p_c8 (fun _ => none) = .error .dataNotFetched :=
  ⟨rfl, by decide, rfl⟩

/-- C8 amended: an explicit (non-`'All'`) selection is the list of
third underscore-separated segments of the truthy `select_curr_*`
parameter keys, passed through with no validation against the currency
catalog: a string belongs to the resolved selection exactly when some
truthy `select_curr_*` key carries it, whether or not it is a known
code. -/
theorem selected_currency_passthrough (p : Params) (h : p.currency ≠ "All")
    (l : List String) (hl : selected_currency p = some l) (c : String) :
    c ∈ l ↔ ∃ q ∈ p.param_keys,
      ("select_curr".toList.isPrefixOf q.1.toList = true ∧ q.2 = true) ∧
      ((q.1.toList.splitOn '_').getD 2 []).asString = c := by
  unfold selected_currency at hl
  rw [if_neg h] at hl
  simp only [Option.some.injEq] at hl
  subst hl
  simp only [List.mem_map, List.mem_filter, Bool.and_eq_true]
  constructor
  · rintro ⟨q, ⟨hq, hpre, hq2⟩, rfl⟩
    exact ⟨q, hq, ⟨hpre, hq2⟩, rfl⟩
  · rintro ⟨q, hq, ⟨hpre, hq2⟩, rfl⟩
    exact ⟨q, ⟨hq, hpre, hq2⟩, rfl⟩

/-- Witness for the amended C8 at the `ZZZ` configuration. -/
theorem selected_currency_passthrough_witness :
    "ZZZ" ∈ ["ZZZ"] ↔ ∃ q ∈ p_c8.param_keys,
      ("select_curr".toList.isPrefixOf q.1.toList = true ∧ q.2 = true) ∧
      ((q.1.toList.splitOn '_').getD 2 []).asString = "ZZZ" :=
  selected_currency_passthrough p_c8 (by decide) ["ZZZ"] rfl "ZZZ"

/-! ## C9: an empty accumulated output is fatal -/

/-- C9: if the run reaches the fetch stage (name check, date
resolution and currency check all pass) and the accumulated output of
`get_rates` is empty, the run fails with the data-empty error; and a
run that returns successfully never returns an empty row list. -/
theorem empty_output_fatal (today : Int) (p : Params)
    (fetch : Int → Option (List FeedLine)) :
    (∀ ds w, p.file_name ≠ "" → resolve_dates today p = .ok (ds, w) →
      selected_currency p ≠ some [] →
      get_rates fetch ds (selected_currency p) = [] →
      run today p fetch = .error .dataNotFetched) ∧
    (∀ rows, run today p fetch = .ok rows → rows ≠ []) := by
  constructor
  · intro ds w hf hr hsel hrates
    unfold run
    rw [if_neg hf, hr]
    simp [hsel, hrates]
  · intro rows h
    obtain ⟨-, ds, w, -, -, -, hne⟩ := run_eq_ok today p fetch rows h
    exact hne

/-- Mode Week, all currencies, valid output-table name. -/
def p_week_all : Params :=
  { file_name := "rates", incremental := false, dates := "Week",
    dependent_date_from := none, dependent_date_to := none,
    currency := "All", param_keys := [], current_as_today := true }

/-- Witness for C9 at mode Week with every fetch failing. -/
theorem empty_output_fatal_witness :
    run 0 p_week_all (fun _ => none) = .error .dataNotFetched :=
  (empty_output_fatal 0 p_week_all (fun _ => none)).1 (set_week [] 0) false
    (by decide) rfl (by decide) rfl

/-! ## C10: unrecognized date-selection mode -/

/-- C10: a mode string matching none of the four known modes resolves
— without any validation error — to the empty date set, and the run
then proceeds (past a valid name and currency selection) to fetch zero
dates, failing with the data-empty error whatever the fetch function
does. -/
theorem unknown_mode_empty_dates (today : Int) (p : Params)
    (h1 : p.dates ≠ "Current day (currently declared rates)")
    (h2 : p.dates ≠ "Current day and yesterday")
    (h3 : p.dates ≠ "Week")
    (h4 : p.dates ≠ "Custom date range") :
    resolve_dates today p = .ok ([], false) ∧
    (p.file_name ≠ "" → selected_currency p ≠ some [] →
      ∀ fetch, run today p fetch = .error .dataNotFetched) := by
  have hres : resolve_dates today p = .ok ([], false) := by
    unfold resolve_dates
    rw [if_neg h1, if_neg h2, if_neg h3, if_neg h4]
  refine ⟨hres, ?_⟩
  intro hf hsel fetch
  unfold run
  rw [if_neg hf, hres]
  simp [hsel, get_rates]

/-- A configuration whose mode string matches no known mode. -/
def p_unknown : Params :=
  { file_name := "rates", incremental := false, dates := "Fortnight",
    dependent_date_from := none, dependent_date_to := none,
    currency := "All", param_keys := [], current_as_today := true }

/-- Witness for C10: under the unknown mode `"Fortnight"` the run
fails with the data-empty error even though every fetch would
succeed. -/
theorem unknown_mode_empty_dates_witness :
    run 0 p_unknown (fun _ =>
      some [{ country := "USA", currencyName := "dolar", amount := 1,
              code := "USD", rate := "22.705" }]) = .error .dataNotFetched :=
  (unknown_mode_empty_dates 0 p_unknown (by decide) (by decide) (by decide)
      (by decide)).2 (by decide) (by decide) _

/-! ## C6: row ordering of a successful run -/

/-- Every row contributed for a date carries that date. -/
lemma rates_for_date_date (fetch : Int → Option (List FeedLine))
    (codes : Option (List String)) (d : Int) (r : RateRecord)
    (hr : r ∈ rates_for_date fetch codes d) : r.date = d := by
  unfold rates_for_date at hr
  split at hr
  · simp at hr
  · obtain ⟨l, -, rfl⟩ := List.mem_map.mp hr
    rfl

/-- The date of every accumulated row is one of the requested dates. -/
lemma get_rates_date_mem (fetch : Int → Option (List FeedLine))
    (codes : Option (List String)) (ds : List Int) (r : RateRecord)
    (h : r ∈ get_rates fetch ds codes) : r.date ∈ ds := by
  unfold get_rates at h
  rw [List.mem_flatMap] at h
  obtain ⟨d, hd, hr⟩ := h
  rw [rates_for_date_date fetch codes d r hr]
  exact hd

/-- Accumulation preserves any reflexive pairwise order on the
requested dates: the date column of `get_rates` is pairwise `R`
whenever the date list is. -/
lemma get_rates_pairwise (fetch : Int → Option (List FeedLine))
    (codes : Option (List String)) (ds : List Int) (R : Int → Int → Prop)
    (hrefl : ∀ d, R d d) (h : ds.Pairwise R) :
    ((get_rates fetch ds codes).map RateRecord.date).Pairwise R := by
  induction ds with
  | nil => simp [get_rates]
  | cons d ds ih =>
      rw [List.pairwise_cons] at h
      unfold get_rates
      rw [List.flatMap_cons, List.map_append, List.pairwise_append]
      refine ⟨?_, ih h.2, ?_⟩
      · refine List.pairwise_of_forall_mem_list ?_
        intro a ha b hb
        obtain ⟨r, hr, rfl⟩ := List.mem_map.mp ha
        obtain ⟨s, hs, rfl⟩ := List.mem_map.mp hb
        rw [rates_for_date_date fetch codes d r hr,
            rates_for_date_date fetch codes d s hs]
        exact hrefl d
      · intro a ha b hb
        obtain ⟨r, hr, rfl⟩ := List.mem_map.mp ha
        obtain ⟨s, hs, rfl⟩ := List.mem_map.mp hb
        rw [rates_for_date_date fetch codes d r hr]
        exact h.1 s.date (get_rates_date_mem fetch codes ds s hs)

/-- A relative-mode date list is strictly descending. -/
lemma set_date_range_pairwise (day : Int) (days : Nat) :
    (set_date_range [] day days).Pairwise (· > ·) := by
  unfold set_date_range
  rw [List.nil_append]
  refine List.pairwise_map.mpr (List.Pairwise.imp ?_ (List.pairwise_lt_range _))
  intro a b hab
  omega

/-- A successful date resolution is strictly descending for the three
relative modes and strictly ascending for the custom range. -/
lemma resolve_dates_pairwise (today : Int) (p : Params) (ds : List Int) (w : Bool)
    (h : resolve_dates today p = .ok (ds, w)) :
    (p.dates ≠ "Custom date range" → ds.Pairwise (· > ·)) ∧
    (p.dates = "Custom date range" → ds.Pairwise (· < ·)) := by
  unfold resolve_dates at h
  by_cases h1 : p.dates = "Current day (currently declared rates)"
  · rw [if_pos h1] at h
    simp only [Except.ok.injEq, Prod.mk.injEq] at h
    refine ⟨fun _ => ?_, fun hc => absurd hc (by rw [h1]; decide)⟩
    rw [← h.1]
    exact set_date_range_pairwise today 1
  · rw [if_neg h1] at h
    by_cases h2 : p.dates = "Current day and yesterday"
    · rw [if_pos h2] at h
      simp only [Except.ok.injEq, Prod.mk.injEq] at h
      refine ⟨fun _ => ?_, fun hc => absurd hc (by rw [h2]; decide)⟩
      rw [← h.1]
      exact set_date_range_pairwise today 2
    · rw [if_neg h2] at h
      by_cases h3 : p.dates = "Week"
      · rw [if_pos h3] at h
        simp only [Except.ok.injEq, Prod.mk.injEq] at h
        refine ⟨fun _ => ?_, fun hc => absurd hc (by rw [h3]; decide)⟩
        rw [← h.1]
        exact set_date_range_pairwise today 7
      · rw [if_neg h3] at h
        by_cases h4 : p.dates = "Custom date range"
        · rw [if_pos h4] at h
          refine ⟨fun hc => absurd h4 hc, fun _ => ?_⟩
          cases hfrom : p.dependent_date_from with
          | none => rw [hfrom] at h; simp at h
          | some date_from =>
              cases hto : p.dependent_date_to with
              | none => rw [hfrom, hto] at h; simp at h
              | some date_to =>
                  rw [hfrom, hto] at h
                  exact set_custom_date_range_ok_pairwise today date_from date_to ds w h
        · rw [if_neg h4] at h
          simp only [Except.ok.injEq, Prod.mk.injEq] at h
          refine ⟨fun _ => ?_, fun hc => absurd hc h4⟩
          rw [← h.1]
          exact List.Pairwise.nil

/-- The two output rows of the C6 counterexample run. -/
def usd_line : FeedLine :=
  { country := "USA", currencyName := "dolar", amount := 1,
    code := "USD", rate := "22.705" }

/-- Mode TodayAndYesterday, all currencies. -/
def p_tay : Params :=
  { file_name := "rates", incremental := false,
    dates := "Current day and yesterday",
    dependent_date_from := none, dependent_date_to := none,
    currency := "All", param_keys := [], current_as_today := true }

/-- C6 counterexample: a successful TodayAndYesterday run at reference
day 1 (2024-01-02) with both fetches succeeding emits its rows with
date column `[1, 0]` — ordered descending, not ascending as the claim
states. -/
theorem rows_ascending_counterexample :
    (run 1 p_tay (fun _ => some [usd_line])).toOption.map
      (fun rows => rows.map RateRecord.date) = some [1, 0] ∧
    ¬ ([1, 0] : List Int).Pairwise (· ≤ ·) :=
  ⟨rfl, by decide⟩

/-- C6 amended: the rows of a successful run are, per resolved date in
resolution order, exactly that date's fetched, deduplicated and
filtered feed lines in feed-line order (first conjunct); consequently
the date column is ordered descending (today first) for the three
relative modes and ascending for the custom range (second and third
conjuncts) — not unconditionally ascending. -/
theorem rows_ordered_by_resolved_dates (today : Int) (p : Params)
    (fetch : Int → Option (List FeedLine)) (rows : List RateRecord)
    (h : run today p fetch = .ok rows) :
    (∃ ds w, resolve_dates today p = .ok (ds, w) ∧
        rows = ds.flatMap (rates_for_date fetch (selected_currency p))) ∧
    (p.dates ≠ "Custom date range" →
      (rows.map RateRecord.date).Pairwise (· ≥ ·)) ∧
    (p.dates = "Custom date range" →
      (rows.map RateRecord.date).Pairwise (· ≤ ·)) := by
  obtain ⟨hf, ds, w, hr, hsel, hrows, hne⟩ := run_eq_ok today p fetch rows h
  have hp := resolve_dates_pairwise today p ds w hr
  refine ⟨⟨ds, w, hr, hrows⟩, ?_, ?_⟩
  · intro hm
    rw [hrows]
    exact get_rates_pairwise fetch _ ds (· ≥ ·) (fun d => le_refl d)
      ((hp.1 hm).imp le_of_lt)
  · intro hm
    rw [hrows]
    exact get_rates_pairwise fetch _ ds (· ≤ ·) (fun d => le_refl d)
      ((hp.2 hm).imp le_of_lt)

/-- The rows emitted by the witness run for the amended C6. -/
def rows_tay : List RateRecord :=
  [{ date := 1, country := "USA", currencyName := "dolar", amount := 1,
     code := "USD", rate := "22.705" },
   { date := 0, country := "USA", currencyName := "dolar", amount := 1,
     code := "USD", rate := "22.705" }]

/-- Witness for the amended C6 at the TodayAndYesterday run. -/
theorem rows_ordered_by_resolved_dates_witness :
    (∃ ds w, resolve_dates 1 p_tay = .ok (ds, w) ∧
        rows_tay = ds.flatMap
          (rates_for_date (fun _ => some [usd_line]) (selected_currency p_tay))) ∧
    (p_tay.dates ≠ "Custom date range" →
      (rows_tay.map RateRecord.date).Pairwise (· ≥ ·)) ∧
    (p_tay.dates = "Custom date range" →
      (rows_tay.map RateRecord.date).Pairwise (· ≤ ·)) :=
  rows_ordered_by_resolved_dates 1 p_tay (fun _ => some [usd_line]) rows_tay rfl

end CnbRates
